import Mathlib

/-!
Verification development for the Database_Query_Assistant repository.

The Python sources are shallowly embedded: Python strings become lists of
characters, dict-shaped pipeline state becomes a structure with `Option`
fields for keys that may be absent, and every external collaborator (the
OpenAI gateway, the SQLAlchemy engine, pandas) is an oracle argument whose
outcome is passed to the embedded node function.
-/

/-- Python strings are modelled as lists of characters. -/
abbrev Str := List Char

/-- Python `str.upper()` (ASCII case mapping, which is all the code relies on). -/
def pyUpper (s : Str) : Str := s.map Char.toUpper

/-- Python `str.lower()`. -/
def pyLower (s : Str) : Str := s.map Char.toLower

/-- Characters removed by Python `str.strip()` (whitespace). -/
def wspace (c : Char) : Bool := c.isWhitespace

/-- Python `str.strip()`: drop whitespace from both ends. -/
def pyStrip (s : Str) : Str := ((s.dropWhile wspace).reverse.dropWhile wspace).reverse

/-- Python substring test `pat in s`. -/
def strContains (pat : Str) : Str → Bool
  | [] => pat.isEmpty
  | c :: rest => pat.isPrefixOf (c :: rest) || strContains pat rest

/-- Index of the first occurrence of `sep` in `s`, if any. -/
def firstOccur (sep : Str) : Str → Option Nat
  | [] => if sep.isEmpty then some 0 else none
  | c :: rest =>
    if sep.isPrefixOf (c :: rest) then some 0
    else (firstOccur sep rest).map (· + 1)

/-- The part of `s` strictly after the first occurrence of `sep`
(used to model Python `s.split(sep)[1]`, whose tail is then cut again). -/
def afterFirst (sep s : Str) : Str :=
  match firstOccur sep s with
  | some i => s.drop (i + sep.length)
  | none => []

/-- The part of `s` strictly before the first occurrence of `sep`
(Python `s.split(sep)[0]`). -/
def beforeFirst (sep s : Str) : Str :=
  match firstOccur sep s with
  | some i => s.take i
  | none => s

/-- `extract_sql_from_response` from `src/src/utils.py` (the copy in
`src/langgraph_nodes.py` is textually identical): pull the SQL out of a
markdown code block when one is present.  `response.split("```sql")[1].split("```")[0]`
is the text after the first ` ```sql ` and before the following backtick fence,
which is what `afterFirst`/`beforeFirst` compute. -/
def extract_sql_from_response (response : Str) : Str :=
  if strContains ("```sql".data) response then
    pyStrip (beforeFirst ("```".data) (afterFirst ("```sql".data) response))
  else if strContains ("```".data) response then
    pyStrip (beforeFirst ("```".data) (afterFirst ("```".data) response))
  else pyStrip response

/-- The deny-list of `validate_select_query` in `src/src/utils.py`. -/
def dangerous_keywords : List Str :=
  ["INSERT".data, "UPDATE".data, "DELETE".data, "DROP".data, "CREATE".data,
   "ALTER".data, "TRUNCATE".data, "GRANT".data, "REVOKE".data, "EXECUTE".data,
   "EXEC".data]

/-- Rejection message for a non-SELECT statement (both validators use it). -/
def notSelectMsg : Str :=
  ("Generated query is not a SELECT statement. This system only supports read-only queries.").data

/-- Rejection message for a deny-listed keyword (both validators use it). -/
def forbiddenKeywordMsg (kw : Str) : Str :=
  ("Query contains forbidden keyword '").data ++ kw ++ ("'. Only SELECT queries are allowed.").data

/-- `validate_select_query` from `src/src/utils.py`: uppercase and strip the
text, require a `SELECT` head, then reject on the first deny-listed keyword
occurring anywhere as a substring. -/
def validate_select_query (sql_query : Str) : Bool × Option Str :=
  let sql_upper := pyStrip (pyUpper sql_query)
  if !(("SELECT".data).isPrefixOf sql_upper) then
    (false, some notSelectMsg)
  else
    match dangerous_keywords.find? (fun kw => strContains kw sql_upper) with
    | some kw => (false, some (forbiddenKeywordMsg kw))
    | none => (true, none)

/-- The deny-list of the inline validation in `query_generator_node` of
`src/langgraph_nodes.py` (lines 278-286); unlike `dangerous_keywords` it has
neither `EXECUTE` nor `EXEC`. -/
def lg_dangerous_keywords : List Str :=
  ["INSERT".data, "UPDATE".data, "DELETE".data, "DROP".data, "CREATE".data,
   "ALTER".data, "TRUNCATE".data, "GRANT".data, "REVOKE".data]

/-- The inline validation of `query_generator_node` in `src/langgraph_nodes.py`
(lines 269-286), factored as a function with the same shape as
`validate_select_query`: SELECT-head check, then the nine-keyword scan. -/
def lgInlineValidate (sql_query : Str) : Bool × Option Str :=
  let sql_upper := pyStrip (pyUpper sql_query)
  if !(("SELECT".data).isPrefixOf sql_upper) then
    (false, some notSelectMsg)
  else
    match lg_dangerous_keywords.find? (fun kw => strContains kw sql_upper) with
    | some kw => (false, some (forbiddenKeywordMsg kw))
    | none => (true, none)

example : (validate_select_query ("SELECT * FROM projects".data)).1 = true := by decide

example : (validate_select_query ("DELETE FROM projects".data)).1 = false := by decide

example : (validate_select_query ("  select name from clients ".data)).1 = true := by decide

example : (validate_select_query ("SELECT EXECUTE".data)).1 = false := by decide

example : (lgInlineValidate ("SELECT EXECUTE".data)).1 = true := by decide

/-! ## Substring facts used to settle the Safety Validator claims -/

lemma isPrefixOf_true_iff (p : Str) : ∀ l : Str, p.isPrefixOf l = true ↔ ∃ q, l = p ++ q := by
  induction p with
  | nil => intro l; simp [List.isPrefixOf]
  | cons a p ih =>
    intro l
    cases l with
    | nil => simp [List.isPrefixOf]
    | cons b t =>
      simp only [List.isPrefixOf, Bool.and_eq_true, beq_iff_eq, ih t]
      constructor
      · rintro ⟨rfl, q, rfl⟩; exact ⟨q, rfl⟩
      · rintro ⟨q, hq⟩
        injection hq with h1 h2
        exact ⟨h1.symm, q, h2⟩

lemma strContains_iff (pat l : Str) :
    strContains pat l = true ↔ ∃ p q, l = p ++ pat ++ q := by
  induction l with
  | nil =>
    cases pat with
    | nil =>
      constructor
      · intro _; exact ⟨[], [], rfl⟩
      · intro _; rfl
    | cons a t =>
      simp only [strContains, List.isEmpty_cons]
      constructor
      · intro h; cases h
      · rintro ⟨p, q, hq⟩
        exact absurd hq.symm (by simp)
  | cons c rest ih =>
    rw [strContains]
    simp only [Bool.or_eq_true, isPrefixOf_true_iff, ih]
    constructor
    · rintro (⟨q, hq⟩ | ⟨p, q, hq⟩)
      · exact ⟨[], q, by simpa using hq⟩
      · exact ⟨c :: p, q, by simp [hq]⟩
    · rintro ⟨p, q, hq⟩
      cases p with
      | nil => exact Or.inl ⟨q, by simpa using hq⟩
      | cons x p =>
        injection hq with h1 h2
        exact Or.inr ⟨p, q, h2⟩

lemma strContains_of_contains_append (p r l : Str)
    (h : strContains (p ++ r) l = true) : strContains p l = true := by
  obtain ⟨x, y, rfl⟩ := (strContains_iff _ _).1 h
  exact (strContains_iff _ _).2 ⟨x, r ++ y, by simp⟩

lemma strContains_dropWhile (w : Char → Bool) (pat : Str) (hne : pat ≠ [])
    (hp : ∀ c ∈ pat, w c = false) :
    ∀ l : Str, strContains pat l = true → strContains pat (l.dropWhile w) = true := by
  intro l
  induction l with
  | nil => intro h; simpa using h
  | cons c rest ih =>
    intro h
    rw [List.dropWhile_cons]
    by_cases hc : w c = true
    · simp only [hc, if_true]
      apply ih
      rw [strContains] at h
      simp only [Bool.or_eq_true] at h
      rcases h with hpre | hr
      · obtain ⟨q, hq⟩ := (isPrefixOf_true_iff pat (c :: rest)).1 hpre
        cases pat with
        | nil => exact absurd rfl hne
        | cons a t =>
          injection hq with h1 h2
          have hfa : w a = false := hp a (by simp)
          rw [← h1] at hfa
          rw [hfa] at hc
          cases hc
      · exact hr
    · simp only [Bool.not_eq_true] at hc
      simp only [hc, Bool.false_eq_true, if_false]
      exact h

lemma strContains_reverse_of (pat l : Str) (h : strContains pat l = true) :
    strContains pat.reverse l.reverse = true := by
  obtain ⟨p, q, rfl⟩ := (strContains_iff pat l).1 h
  refine (strContains_iff _ _).2 ⟨q.reverse, p.reverse, ?_⟩
  simp

lemma strContains_pyStrip (pat l : Str) (hne : pat ≠ [])
    (hw : ∀ c ∈ pat, wspace c = false) (h : strContains pat l = true) :
    strContains pat (pyStrip l) = true := by
  have h1 := strContains_dropWhile wspace pat hne hw l h
  have h2 := strContains_reverse_of pat _ h1
  have hne' : pat.reverse ≠ [] := by simpa using hne
  have hw' : ∀ c ∈ pat.reverse, wspace c = false := fun c hc => hw c (List.mem_reverse.1 hc)
  have h3 := strContains_dropWhile wspace pat.reverse hne' hw' _ h2
  have h4 := strContains_reverse_of pat.reverse _ h3
  rw [List.reverse_reverse] at h4
  exact h4

lemma find?_eq_some_of_mem {α} (p : α → Bool) :
    ∀ (l : List α) (x : α), x ∈ l → p x = true → ∃ y, l.find? p = some y := by
  intro l
  induction l with
  | nil => intro x hx; cases hx
  | cons a t ih =>
    intro x hx hpx
    by_cases ha : p a = true
    · exact ⟨a, by rw [List.find?_cons_of_pos _ ha]⟩
    · rcases List.mem_cons.1 hx with rfl | hx'
      · exact absurd hpx ha
      · obtain ⟨y, hy⟩ := ih x hx' hpx
        refine ⟨y, ?_⟩
        rw [List.find?_cons_of_neg _ (by simpa using ha), hy]

lemma find?_append_right_none {α} (p : α → Bool) (l₂ : List α) (h : l₂.find? p = none) :
    ∀ l₁ : List α, (l₁ ++ l₂).find? p = l₁.find? p := by
  intro l₁
  induction l₁ with
  | nil => simpa using h
  | cons a t ih =>
    by_cases ha : p a = true
    · rw [List.cons_append, List.find?_cons_of_pos _ ha, List.find?_cons_of_pos _ ha]
    · have ha' : p a = false := by simpa using ha
      rw [List.cons_append, List.find?_cons_of_neg _ (by simp [ha']),
        List.find?_cons_of_neg _ (by simp [ha']), ih]

/-- C1: every candidate SQL text containing one of the deny-listed keywords
(`INSERT`, `UPDATE`, `DELETE`, `DROP`, `CREATE`, `ALTER`, `TRUNCATE`, `GRANT`,
`REVOKE`, `EXECUTE` — all members of `dangerous_keywords`) as a
case-insensitive substring anywhere in the text — including inside a string
literal or identifier — is rejected by `validate_select_query`
(`ok = false`). -/
theorem validate_select_query_rejects_denylisted (sql kw : Str)
    (hmem : kw ∈ dangerous_keywords)
    (hocc : strContains kw (pyUpper sql) = true) :
    (validate_select_query sql).1 = false := by
  have hall : ∀ k ∈ dangerous_keywords, k ≠ [] ∧ ∀ c ∈ k, wspace c = false := by decide
  have hprops := hall kw hmem
  have hocc' : strContains kw (pyStrip (pyUpper sql)) = true :=
    strContains_pyStrip kw (pyUpper sql) hprops.1 hprops.2 hocc
  simp only [validate_select_query]
  by_cases hsel : ("SELECT".data).isPrefixOf (pyStrip (pyUpper sql)) = true
  · obtain ⟨y, hy⟩ := find?_eq_some_of_mem
      (fun k => strContains k (pyStrip (pyUpper sql))) dangerous_keywords kw hmem hocc'
    simp only [hsel, Bool.not_true, Bool.false_eq_true, if_false, hy]
  · have hsel' : ("SELECT".data).isPrefixOf (pyStrip (pyUpper sql)) = false := by
      revert hsel
      cases ("SELECT".data).isPrefixOf (pyStrip (pyUpper sql)) <;> simp
    simp [hsel']

/-- Witness for C1: a SELECT whose identifier `col_drop` mentions `DROP`. -/
theorem validate_select_query_rejects_denylisted_witness :
    (validate_select_query ("SELECT col_drop FROM t".data)).1 = false :=
  validate_select_query_rejects_denylisted ("SELECT col_drop FROM t".data) ("DROP".data)
    (by decide) (by decide)

/-- C2: every candidate SQL text whose trimmed, upper-cased form does not
start with `SELECT` is rejected by `validate_select_query` with a non-empty
reason. -/
theorem validate_select_query_rejects_non_select (sql : Str)
    (h : ("SELECT".data).isPrefixOf (pyStrip (pyUpper sql)) = false) :
    (validate_select_query sql).1 = false ∧
      ∃ msg, (validate_select_query sql).2 = some msg ∧ msg ≠ [] := by
  have hv : validate_select_query sql = (false, some notSelectMsg) := by
    simp only [validate_select_query, h, Bool.not_false, if_true]
  rw [hv]
  exact ⟨rfl, notSelectMsg, rfl, by decide⟩

/-- Witness for C2 at `DROP TABLE projects`. -/
theorem validate_select_query_rejects_non_select_witness :
    (validate_select_query ("DROP TABLE projects".data)).1 = false ∧
      ∃ msg, (validate_select_query ("DROP TABLE projects".data)).2 = some msg ∧ msg ≠ [] :=
  validate_select_query_rejects_non_select ("DROP TABLE projects".data) (by decide)

/-- C10 counterexample: the two validators are not equivalent.  The text
`SELECT EXECUTE` is rejected by `validate_select_query` (its deny-list has
`EXECUTE` and `EXEC`) but accepted by the inline validation of
`query_generator_node` in `src/langgraph_nodes.py`, whose list stops at
`REVOKE`. -/
theorem validators_disagree_on_execute :
    (validate_select_query ("SELECT EXECUTE".data)).1 = false ∧
      (lgInlineValidate ("SELECT EXECUTE".data)).1 = true := by decide

/-- C10 (amended): on every SQL text whose trimmed upper-cased form does not
contain `EXEC` (hence in particular no `EXECUTE`), the two validators accept
or reject identically; they differ exactly on the extra `EXECUTE`/`EXEC`
entries of `dangerous_keywords`. -/
theorem validators_agree_without_exec (sql : Str)
    (h : strContains ("EXEC".data) (pyStrip (pyUpper sql)) = false) :
    (validate_select_query sql).1 = (lgInlineValidate sql).1 := by
  have hexecute : strContains ("EXECUTE".data) (pyStrip (pyUpper sql)) = false := by
    by_contra hx
    rw [Bool.not_eq_false] at hx
    have hsplit : ("EXEC".data) ++ ("UTE".data) = ("EXECUTE".data) := by decide
    have := strContains_of_contains_append ("EXEC".data) ("UTE".data)
      (pyStrip (pyUpper sql)) (by rw [hsplit]; exact hx)
    rw [h] at this
    cases this
  simp only [validate_select_query, lgInlineValidate]
  by_cases hsel : ("SELECT".data).isPrefixOf (pyStrip (pyUpper sql)) = true
  · simp only [hsel, Bool.not_true, Bool.false_eq_true, if_false]
    have hlist : dangerous_keywords = lg_dangerous_keywords ++ [("EXECUTE".data), ("EXEC".data)] := by
      decide
    have h2 : ([("EXECUTE".data), ("EXEC".data)]).find?
        (fun kw => strContains kw (pyStrip (pyUpper sql))) = none := by
      simp [List.find?, hexecute, h]
    rw [hlist, find?_append_right_none _ _ h2]
  · have hsel' : ("SELECT".data).isPrefixOf (pyStrip (pyUpper sql)) = false := by
      revert hsel
      cases ("SELECT".data).isPrefixOf (pyStrip (pyUpper sql)) <;> simp
    simp [hsel']

/-- Witness for the amended C10 at a query free of `EXEC`. -/
theorem validators_agree_without_exec_witness :
    (validate_select_query ("SELECT budget FROM projects".data)).1 =
      (lgInlineValidate ("SELECT budget FROM projects".data)).1 :=
  validators_agree_without_exec ("SELECT budget FROM projects".data) (by decide)

/-! ## Data model: the state dict threaded through the LangGraph nodes -/

structure TableInfo where
  columns : List (Str × Str)
  primary_key : Option Str
  foreign_keys : List (Str × Str)
deriving DecidableEq

structure Schema where
  tables : List (Str × TableInfo)
deriving DecidableEq

/-- A pandas data frame, abstracted to what the nodes inspect: its rows (in
order, each a list of cell texts), its column names, and which columns
`select_dtypes(include=['number'])` reports as numeric. -/
structure DataFrame where
  rows : List (List Str)
  cols : List Str
  numericCols : List Str
deriving DecidableEq

structure Metadata where
  total_rows : Nat
  displayed_rows : Nat
  execution_time : Nat
  capped : Bool
  result_message : Option Str
deriving DecidableEq

/-- The dict threaded through the graph (typed as `AgentState` in
`src/src/state.py`); keys a run may not have set yet are `Option`s.  Time
values are opaque ticks: the code only ever stores a measured value or `0`. -/
structure PipelineState where
  user_input : Str := []
  show_sql : Bool := false
  display_cap : Option Nat := none
  edit_count : Option Nat := none
  schema : Option Schema := none
  improved_prompt : Option Str := none
  user_confirmed : Option Bool := none
  sql_query : Option Str := none
  sql_valid : Option Bool := none
  query_results : Option DataFrame := none
  total_rows : Option Nat := none
  execution_time : Option Nat := none
  error : Option Str := none
  metadata : Option Metadata := none
  insights : Option Str := none
deriving DecidableEq

/-- The fallback schema built when no database engine is configured
(`sql_schema_retriever`, identical in both node files). -/
def placeholder_schema : Schema :=
  { tables :=
      [("projects".data,
        { columns :=
            [("project_id".data, "INTEGER".data), ("project_name".data, "TEXT".data),
             ("start_date".data, "DATE".data), ("end_date".data, "DATE".data),
             ("client_id".data, "INTEGER".data), ("status".data, "TEXT".data),
             ("budget".data, "NUMERIC".data)],
          primary_key := some ("project_id".data),
          foreign_keys := [("client_id".data, "clients.client_id".data)] }),
       ("clients".data,
        { columns :=
            [("client_id".data, "INTEGER".data), ("client_name".data, "TEXT".data),
             ("industry".data, "TEXT".data), ("contact_email".data, "TEXT".data)],
          primary_key := some ("client_id".data),
          foreign_keys := [] }),
       ("orders".data,
        { columns :=
            [("order_id".data, "INTEGER".data), ("project_id".data, "INTEGER".data),
             ("order_date".data, "DATE".data), ("amount".data, "NUMERIC".data),
             ("status".data, "TEXT".data)],
          primary_key := some ("order_id".data),
          foreign_keys := [("project_id".data, "projects.project_id".data)] })] }

/-- Outcome of the schema-introspection attempt in `sql_schema_retriever`
(the database is an external collaborator). -/
inductive SchemaOutcome where
  | noEngine
  | ok (schema : Schema)
  | failure (msg : Str)
deriving DecidableEq

/-- `sql_schema_retriever` (identical in `src/src/nodes.py` lines 37-114 and
`src/langgraph_nodes.py` lines 127-210): placeholder schema when no engine,
the introspected schema on success, and `error` set on an introspection
exception. -/
def sql_schema_retriever (o : SchemaOutcome) (s : PipelineState) : PipelineState :=
  match o with
  | .noEngine => { s with schema := some placeholder_schema }
  | .ok sch => { s with schema := some sch }
  | .failure m => { s with error := some (("Schema retrieval failed: ").data ++ m) }

/-- `user_input_node`: pass-through (both node files). -/
def user_input_node (s : PipelineState) : PipelineState := s

/-- `prompt_improver_node` (`src/src/nodes.py` lines 117-141,
`src/langgraph_nodes.py` lines 212-237): stores the gateway reply as the
improved prompt; `reply` is what `call_llm` returned.  No `ERROR:` check. -/
def prompt_improver_node (reply : Str) (s : PipelineState) : PipelineState :=
  { s with improved_prompt := some reply }

/-- `query_generator_node` from `src/src/nodes.py` (lines 144-193): an
`ERROR:`-prefixed gateway reply becomes a failure; otherwise the SQL is
pulled out of the code block and checked with `validate_select_query`. -/
def query_generator_node (reply : Str) (s : PipelineState) : PipelineState :=
  if ("ERROR:".data).isPrefixOf (pyStrip reply) then
    { s with error := some (pyStrip reply), sql_valid := some false }
  else
    let sql_query := extract_sql_from_response reply
    let v := validate_select_query sql_query
    if v.1 = false then
      { s with error := v.2, sql_valid := some false }
    else
      { s with sql_query := some sql_query, sql_valid := some true, error := none }

/-- `query_generator_node` from `src/langgraph_nodes.py` (lines 239-293): the
same shape but with the inline validation `lgInlineValidate`. -/
def lg_query_generator_node (reply : Str) (s : PipelineState) : PipelineState :=
  if ("ERROR:".data).isPrefixOf (pyStrip reply) then
    { s with error := some (pyStrip reply), sql_valid := some false }
  else
    let sql_query := extract_sql_from_response reply
    let v := lgInlineValidate sql_query
    if v.1 = false then
      { s with error := v.2, sql_valid := some false }
    else
      { s with sql_query := some sql_query, sql_valid := some true, error := none }

/-- Outcome of one database execution attempt in `query_runner_tool_node`. -/
inductive ExecOutcome where
  | noEngine
  | ok (df : DataFrame) (elapsed : Nat)
  | dbError (origMsg : Str)
  | unexpected (msg : Str)
deriving DecidableEq

def noDbMsg : Str :=
  ("Database connection not available. Please check DATABASE_URL in .env file").data

def timeoutRewrite : Str :=
  ("Query exceeded time limit (20s). Please add filters or narrow your query.").data

def permissionRewrite : Str :=
  ("Permission denied. You don't have access to read from this table.").data

/-- `query_runner_tool_node` (`src/src/nodes.py` lines 196-262; the copy in
`src/langgraph_nodes.py` lines 295-366 behaves identically since
`QUERY_TIMEOUT_SECONDS = 20`).  Success stores the frame, its row count and
the elapsed time and clears `error`; a SQLAlchemy error message is rewritten
when it mentions `timeout` or `permission denied` and surfaced raw otherwise;
the missing-engine branch sets only `error` and `query_results`. -/
def query_runner_tool_node (o : ExecOutcome) (s : PipelineState) : PipelineState :=
  match o with
  | .noEngine => { s with error := some noDbMsg, query_results := none }
  | .ok df elapsed =>
    { s with query_results := some df, total_rows := some df.rows.length,
             execution_time := some elapsed, error := none }
  | .dbError m =>
    let error_msg :=
      if strContains ("timeout".data) (pyLower m) then timeoutRewrite
      else if strContains ("permission denied".data) (pyLower m) then permissionRewrite
      else m
    { s with error := some (("Query execution failed: ").data ++ error_msg),
             query_results := none, total_rows := some 0, execution_time := some 0 }
  | .unexpected m =>
    { s with error := some (("Unexpected error: ").data ++ m),
             query_results := none, total_rows := some 0, execution_time := some 0 }

def emptyResultMsg : Str :=
  ("✅ Query executed successfully, but returned 0 rows. This means no data matched your criteria.").data

def cappedResultMsg (display_cap total_rows : Nat) : Str :=
  ("⚠️ Showing ").data ++ (toString display_cap).data ++ (" of ").data ++
    (toString total_rows).data ++ (" rows. Query returned more data than can be displayed.").data

/-- `user_output_node` (`src/src/nodes.py` lines 265-298,
`src/langgraph_nodes.py` lines 368-401): truncate to the display cap with
`head`, build the status message and the metadata record.  (When
`query_results` is `None` while `total_rows > display_cap` the Python would
raise on `None.head`; that combination is unreachable from the graph and the
embedding leaves the results `none`.) -/
def user_output_node (s : PipelineState) : PipelineState :=
  let total_rows := s.total_rows.getD 0
  let display_cap := s.display_cap.getD 500
  let display_results :=
    if total_rows > display_cap then
      s.query_results.map (fun df => { df with rows := df.rows.take display_cap })
    else s.query_results
  let result_message :=
    if total_rows = 0 then some emptyResultMsg
    else if total_rows > display_cap then some (cappedResultMsg display_cap total_rows)
    else none
  let md : Metadata :=
    { total_rows := total_rows,
      displayed_rows := match display_results with | some df => df.rows.length | none => 0,
      execution_time := s.execution_time.getD 0,
      capped := decide (total_rows > display_cap),
      result_message := result_message }
  { s with query_results := display_results, metadata := some md }

/-- The trigger keywords of `insights_generator_tool_node` (both node files). -/
def insight_keywords : List Str :=
  ["trend".data, "compare".data, "analysis".data, "insight".data, "summary".data,
   "top".data, "breakdown".data, "average".data, "mean".data, "median".data,
   "percent".data, "total".data, "count".data, "over".data, "under".data,
   "exceed".data, "below".data]

def fallbackInsight : Str :=
  ("No data matched your query criteria. This could mean the conditions specified don't apply to any records in the database.").data

/-- `insights_generator_tool_node` (`src/src/nodes.py` lines 301-370,
`src/langgraph_nodes.py` lines 403-473); `reply` is the gateway reply for
whichever request the node sends.  In the empty-result case the reply is kept
when longer than 10 characters, else the fixed fallback sentence is stored. -/
def insights_generator_tool_node (reply : Str) (s : PipelineState) : PipelineState :=
  let total_rows := s.total_rows.getD 0
  if total_rows = 0 then
    if reply.length > 10 then { s with insights := some reply }
    else { s with insights := some fallbackInsight }
  else
    match s.query_results with
    | none => { s with insights := none }
    | some df =>
      if df.rows.length = 0 then { s with insights := none }
      else
        let should_generate :=
          (insight_keywords.any (fun kw => strContains kw (pyLower s.user_input))) ||
            (decide (0 < df.numericCols.length) && decide (3 ≤ df.rows.length))
        if !should_generate then { s with insights := none }
        else if reply.length > 10 && !(strContains ("no insight".data) (pyLower reply)) then
          { s with insights := some reply }
        else { s with insights := none }

/-- `should_continue_after_prompt_improvement` (`src/langgraph_nodes.py`
lines 479-490). -/
def should_continue_after_prompt_improvement (s : PipelineState) : Str :=
  match s.user_confirmed with
  | some true => ("generate_query").data
  | some false => ("improve_again").data
  | none => ("wait_for_confirmation").data

/-- `should_proceed_after_query_generation` (`src/langgraph_nodes.py`
lines 492-497): run the query iff `sql_valid` is `True`. -/
def should_proceed_after_query_generation (s : PipelineState) : Str :=
  if s.sql_valid = some true then ("run_query").data else ("error").data

/-! ## The linear pipeline of `create_inventory_graph` (`src/langgraph_graph.py`) -/

/-- Nodes of the compiled graph, plus the `END` sentinel. -/
inductive PNode where
  | user_input | schema_retrieval | prompt_improver | query_generator
  | query_runner | user_output | insights_generator | pEnd
deriving DecidableEq

/-- One run's worth of external-collaborator behaviour: the schema
introspection outcome, the three gateway replies, and the database execution
outcome. -/
structure PipelineOracle where
  schemaOutcome : SchemaOutcome
  improverReply : Str
  generatorReply : Str
  execOutcome : ExecOutcome
  insightsReply : Str
deriving DecidableEq

/-- One step of the compiled graph: run the node's function on the state, then
follow the edge added by `create_inventory_graph` (`src/langgraph_graph.py`
lines 28-61), conditional after `prompt_improver` and `query_generator`. -/
def pipelineStep (o : PipelineOracle) : PNode → PipelineState → PNode × PipelineState
  | .user_input, s => (.schema_retrieval, user_input_node s)
  | .schema_retrieval, s => (.prompt_improver, sql_schema_retriever o.schemaOutcome s)
  | .prompt_improver, s =>
    let t := prompt_improver_node o.improverReply s
    let r := should_continue_after_prompt_improvement t
    (if r = ("generate_query").data then .query_generator
     else if r = ("improve_again").data then .prompt_improver else .pEnd, t)
  | .query_generator, s =>
    let t := lg_query_generator_node o.generatorReply s
    let r := should_proceed_after_query_generation t
    (if r = ("run_query").data then .query_runner else .pEnd, t)
  | .query_runner, s => (.user_output, query_runner_tool_node o.execOutcome s)
  | .user_output, s => (.insights_generator, user_output_node s)
  | .insights_generator, s => (.pEnd, insights_generator_tool_node o.insightsReply s)
  | .pEnd, s => (.pEnd, s)

/-- Run the graph for at most `fuel` steps from node `n`; returns the final
state and the list of nodes that executed, in order (`END` excluded). -/
def runTrace (o : PipelineOracle) : Nat → PNode → PipelineState → PipelineState × List PNode
  | 0, _, s => (s, [])
  | _ + 1, .pEnd, s => (s, [])
  | fuel + 1, n, s =>
    let p := pipelineStep o n s
    let q := runTrace o fuel p.1 p.2
    (q.1, n :: q.2)

/-- The initial state `run_full_graph` passes to the compiled graph
(`src/langgraph_graph.py` lines 110-128): auto-confirmed.  (The Python also
seeds `metadata` with an empty dict, which `user_output_node` replaces; the
embedding starts it at `none`.) -/
def run_full_graph_init (user_query : Str) (show_sql : Bool) (display_cap : Nat) : PipelineState :=
  { user_input := user_query, show_sql := show_sql, display_cap := some display_cap,
    edit_count := some 0, user_confirmed := some true }

lemma runTrace_pEnd (o : PipelineOracle) (fuel : Nat) (s : PipelineState) :
    runTrace o fuel .pEnd s = (s, []) := by
  cases fuel <;> rfl

lemma runTrace_step (o : PipelineOracle) (fuel : Nat) (n : PNode) (s : PipelineState)
    (hn : n ≠ PNode.pEnd) :
    runTrace o (fuel + 1) n s =
      ((runTrace o fuel (pipelineStep o n s).1 (pipelineStep o n s).2).1,
        n :: (runTrace o fuel (pipelineStep o n s).1 (pipelineStep o n s).2).2) := by
  cases n
  case pEnd => exact absurd rfl hn
  all_goals rfl

lemma lgInlineValidate_shape (sql : Str) :
    lgInlineValidate sql = (true, none) ∨ ∃ m, lgInlineValidate sql = (false, some m) := by
  simp only [lgInlineValidate]
  by_cases h : ("SELECT".data).isPrefixOf (pyStrip (pyUpper sql)) = true
  · simp only [h, Bool.not_true, Bool.false_eq_true, if_false]
    cases hf : lg_dangerous_keywords.find? (fun kw => strContains kw (pyStrip (pyUpper sql))) with
    | none => exact Or.inl rfl
    | some kw => exact Or.inr ⟨_, rfl⟩
  · have h' : ("SELECT".data).isPrefixOf (pyStrip (pyUpper sql)) = false := by
      revert h
      cases ("SELECT".data).isPrefixOf (pyStrip (pyUpper sql)) <;> simp
    simp only [h', Bool.not_false, if_true]
    exact Or.inr ⟨_, rfl⟩

/-- Every outcome of the langgraph `query_generator_node`: either the SQL was
marked valid, `error` cleared and the query stored, or it was marked invalid
with `error` set; the improved prompt is preserved either way. -/
lemma lg_generator_shape (reply : Str) (s : PipelineState) :
    ((lg_query_generator_node reply s).sql_valid = some true ∧
      (lg_query_generator_node reply s).error = none ∧
      (lg_query_generator_node reply s).improved_prompt = s.improved_prompt ∧
      (lg_query_generator_node reply s).user_confirmed = s.user_confirmed) ∨
    ((lg_query_generator_node reply s).sql_valid = some false ∧
      (lg_query_generator_node reply s).error.isSome = true ∧
      (lg_query_generator_node reply s).improved_prompt = s.improved_prompt ∧
      (lg_query_generator_node reply s).user_confirmed = s.user_confirmed) := by
  simp only [lg_query_generator_node]
  by_cases h1 : ("ERROR:".data).isPrefixOf (pyStrip reply) = true
  · right; simp [h1]
  · have h1' : ("ERROR:".data).isPrefixOf (pyStrip reply) = false := by
      revert h1
      cases ("ERROR:".data).isPrefixOf (pyStrip reply) <;> simp
    rcases lgInlineValidate_shape (extract_sql_from_response reply) with hv | ⟨m, hv⟩
    · left; simp [h1', hv]
    · right; simp [h1', hv]

/-- C3: starting the linear pipeline at the Query Synthesis stage, the
Execution stage (`query_runner`) appears in the executed trace iff the state
produced by `query_generator_node` has `sql_valid = True`; when it does not,
the run terminates immediately after `query_generator` with `error` set and
`improved_prompt` preserved, and `query_runner` is never executed. -/
theorem execution_iff_sql_valid (o : PipelineOracle) (s : PipelineState)
    (fuel : Nat) (hf : 5 ≤ fuel) :
    (PNode.query_runner ∈ (runTrace o fuel .query_generator s).2 ↔
      (lg_query_generator_node o.generatorReply s).sql_valid = some true) ∧
    ((lg_query_generator_node o.generatorReply s).sql_valid ≠ some true →
      (runTrace o fuel .query_generator s).1 = lg_query_generator_node o.generatorReply s ∧
      (lg_query_generator_node o.generatorReply s).error.isSome = true ∧
      (lg_query_generator_node o.generatorReply s).improved_prompt = s.improved_prompt ∧
      (runTrace o fuel .query_generator s).2 = [PNode.query_generator]) := by
  obtain ⟨k, rfl⟩ : ∃ k, fuel = k + 5 := ⟨fuel - 5, by omega⟩
  rw [show k + 5 = (k + 4) + 1 from rfl,
    runTrace_step o (k + 4) .query_generator s (by decide)]
  rcases lg_generator_shape o.generatorReply s with ⟨hv, he, hip, huc⟩ | ⟨hv, he, hip, huc⟩
  · have hroute : pipelineStep o .query_generator s =
        (.query_runner, lg_query_generator_node o.generatorReply s) := by
      simp [pipelineStep, should_proceed_after_query_generation, hv]
    rw [hroute]
    rw [show k + 4 = (k + 3) + 1 from rfl,
      runTrace_step o (k + 3) .query_runner _ (by decide)]
    constructor
    · simp [hv]
    · intro h; exact absurd hv h
  · have hroute : pipelineStep o .query_generator s =
        (.pEnd, lg_query_generator_node o.generatorReply s) := by
      simp [pipelineStep, should_proceed_after_query_generation, hv]
    rw [hroute, runTrace_pEnd]
    constructor
    · simp [hv]
    · intro _
      exact ⟨rfl, he, hip, rfl⟩

/-- A four-row one-column frame used by the concrete runs. -/
def sampleDf : DataFrame :=
  { rows := [["1".data], ["2".data], ["3".data], ["4".data]],
    cols := ["project_id".data],
    numericCols := ["project_id".data] }

/-- A concrete healthy run: no database (placeholder schema), a clean SELECT
from the generator, a successful execution. -/
def sampleOracle : PipelineOracle :=
  { schemaOutcome := .noEngine,
    improverReply := ("Show all projects ordered by start date.").data,
    generatorReply := ("SELECT * FROM projects").data,
    execOutcome := .ok sampleDf 2,
    insightsReply := ("There are four projects in total in the table.").data }

def sampleInit : PipelineState := run_full_graph_init (("show me all projects").data) false 500

/-- Witness for C3 on the concrete healthy run. -/
theorem execution_iff_sql_valid_witness :
    (PNode.query_runner ∈ (runTrace sampleOracle 5 .query_generator sampleInit).2 ↔
      (lg_query_generator_node sampleOracle.generatorReply sampleInit).sql_valid = some true) ∧
    ((lg_query_generator_node sampleOracle.generatorReply sampleInit).sql_valid ≠ some true →
      (runTrace sampleOracle 5 .query_generator sampleInit).1 =
        lg_query_generator_node sampleOracle.generatorReply sampleInit ∧
      (lg_query_generator_node sampleOracle.generatorReply sampleInit).error.isSome = true ∧
      (lg_query_generator_node sampleOracle.generatorReply sampleInit).improved_prompt =
        sampleInit.improved_prompt ∧
      (runTrace sampleOracle 5 .query_generator sampleInit).2 = [PNode.query_generator]) :=
  execution_iff_sql_valid sampleOracle sampleInit 5 (by decide)

lemma schema_retriever_user_confirmed (o : SchemaOutcome) (s : PipelineState) :
    (sql_schema_retriever o s).user_confirmed = s.user_confirmed := by
  cases o <;> rfl

/-- A run whose schema introspection raises but whose later stages succeed. -/
def c4Oracle : PipelineOracle :=
  { schemaOutcome := .failure (("connection refused").data),
    improverReply := ("Show all projects.").data,
    generatorReply := ("SELECT * FROM projects").data,
    execOutcome := .ok sampleDf 2,
    insightsReply := ("There are four projects in total in the table.").data }

/-- C4 counterexample: on the concrete run `c4Oracle`, schema retrieval sets
`error` (state after two steps has `error` set), yet the full run executes
every remaining stage and ends with `error = None` — the successful
`query_generator` overwrote the schema error and nothing was skipped. -/
theorem error_overwritten_and_stages_not_skipped :
    (runTrace c4Oracle 2 .user_input sampleInit).1.error.isSome = true ∧
    (runTrace c4Oracle 10 .user_input sampleInit).1.error = none ∧
    (runTrace c4Oracle 10 .user_input sampleInit).2 =
      [PNode.user_input, PNode.schema_retrieval, PNode.prompt_improver,
       PNode.query_generator, PNode.query_runner, PNode.user_output,
       PNode.insights_generator] := by decide

/-- C4 (amended): in the linear pipeline the only short-circuit is the
`sql_valid` branch after query generation — when the generated SQL is not
marked valid, the run ends right after `query_generator` with `error` set.
An error set by schema retrieval does not skip later stages, a successful
`query_generator` or `query_runner` overwrites `error` with `None`, and the
result-shaping and insight stages leave `error` unchanged. -/
theorem error_propagation_amended (o : PipelineOracle) (s u : PipelineState)
    (r : Str) (df : DataFrame) (e fuel : Nat)
    (hconf : s.user_confirmed = some true) (hf : 5 ≤ fuel) :
    ((lg_query_generator_node o.generatorReply
        (prompt_improver_node o.improverReply
          (sql_schema_retriever o.schemaOutcome (user_input_node s)))).sql_valid ≠ some true →
      (runTrace o fuel .user_input s).1 =
        lg_query_generator_node o.generatorReply
          (prompt_improver_node o.improverReply
            (sql_schema_retriever o.schemaOutcome (user_input_node s))) ∧
      (runTrace o fuel .user_input s).1.error.isSome = true ∧
      (runTrace o fuel .user_input s).2 =
        [PNode.user_input, PNode.schema_retrieval, PNode.prompt_improver,
         PNode.query_generator]) ∧
    ((user_output_node u).error = u.error) ∧
    ((insights_generator_tool_node r u).error = u.error) ∧
    ((lg_query_generator_node r u).sql_valid = some true →
      (lg_query_generator_node r u).error = none) ∧
    ((query_runner_tool_node (.ok df e) u).error = none) := by
  obtain ⟨k, rfl⟩ : ∃ k, fuel = k + 5 := ⟨fuel - 5, by omega⟩
  refine ⟨?_, ?_, ?_, ?_, ?_⟩
  · intro hinv
    rw [show k + 5 = (k + 4) + 1 from rfl, runTrace_step o (k + 4) .user_input s (by decide)]
    have st1 : pipelineStep o .user_input s = (.schema_retrieval, user_input_node s) := rfl
    rw [st1]
    rw [show k + 4 = (k + 3) + 1 from rfl,
      runTrace_step o (k + 3) .schema_retrieval _ (by decide)]
    have st2 : pipelineStep o .schema_retrieval (user_input_node s) =
        (.prompt_improver, sql_schema_retriever o.schemaOutcome (user_input_node s)) := rfl
    rw [st2]
    rw [show k + 3 = (k + 2) + 1 from rfl,
      runTrace_step o (k + 2) .prompt_improver _ (by decide)]
    have huc2 : (prompt_improver_node o.improverReply
        (sql_schema_retriever o.schemaOutcome (user_input_node s))).user_confirmed = some true := by
      simp [prompt_improver_node, schema_retriever_user_confirmed, user_input_node, hconf]
    have st3 : pipelineStep o .prompt_improver
        (sql_schema_retriever o.schemaOutcome (user_input_node s)) =
        (.query_generator, prompt_improver_node o.improverReply
          (sql_schema_retriever o.schemaOutcome (user_input_node s))) := by
      simp [pipelineStep, should_continue_after_prompt_improvement, huc2]
    rw [st3]
    rw [show k + 2 = (k + 1) + 1 from rfl,
      runTrace_step o (k + 1) .query_generator _ (by decide)]
    have st4 : pipelineStep o .query_generator
        (prompt_improver_node o.improverReply
          (sql_schema_retriever o.schemaOutcome (user_input_node s))) =
        (.pEnd, lg_query_generator_node o.generatorReply
          (prompt_improver_node o.improverReply
            (sql_schema_retriever o.schemaOutcome (user_input_node s)))) := by
      simp [pipelineStep, should_proceed_after_query_generation, hinv]
    rw [st4, runTrace_pEnd]
    refine ⟨rfl, ?_, rfl⟩
    rcases lg_generator_shape o.generatorReply
        (prompt_improver_node o.improverReply
          (sql_schema_retriever o.schemaOutcome (user_input_node s))) with
      ⟨hv, _, _, _⟩ | ⟨_, he, _, _⟩
    · exact absurd hv hinv
    · exact he
  · rfl
  · simp only [insights_generator_tool_node]
    repeat' split
    all_goals rfl
  · intro hvalid
    rcases lg_generator_shape r u with ⟨_, he, _, _⟩ | ⟨hv, _, _, _⟩
    · exact he
    · rw [hv] at hvalid
      simp at hvalid
  · rfl

/-- Witness for the amended C4 at concrete inputs. -/
theorem error_propagation_amended_witness :
    ((lg_query_generator_node sampleOracle.generatorReply
        (prompt_improver_node sampleOracle.improverReply
          (sql_schema_retriever sampleOracle.schemaOutcome
            (user_input_node sampleInit)))).sql_valid ≠ some true →
      (runTrace sampleOracle 5 .user_input sampleInit).1 =
        lg_query_generator_node sampleOracle.generatorReply
          (prompt_improver_node sampleOracle.improverReply
            (sql_schema_retriever sampleOracle.schemaOutcome (user_input_node sampleInit))) ∧
      (runTrace sampleOracle 5 .user_input sampleInit).1.error.isSome = true ∧
      (runTrace sampleOracle 5 .user_input sampleInit).2 =
        [PNode.user_input, PNode.schema_retrieval, PNode.prompt_improver,
         PNode.query_generator]) ∧
    ((user_output_node sampleInit).error = sampleInit.error) ∧
    ((insights_generator_tool_node (("SELECT 1").data) sampleInit).error = sampleInit.error) ∧
    ((lg_query_generator_node (("SELECT 1").data) sampleInit).sql_valid = some true →
      (lg_query_generator_node (("SELECT 1").data) sampleInit).error = none) ∧
    ((query_runner_tool_node (.ok sampleDf 0) sampleInit).error = none) :=
  error_propagation_amended sampleOracle sampleInit sampleInit (("SELECT 1").data)
    sampleDf 0 5 (by decide) (by decide)

/-- C6: the Result Shaper keeps the first `min(total_rows, display_cap)` rows
in their original order.  `total_rows` is the full count stored by the
executor, so it equals the number of rows of the frame (hypothesis `htr`).
When `total_rows > display_cap` the metadata is capped and exactly
`display_cap` rows are displayed; otherwise the frame passes through
unmodified with `capped = false`. -/
theorem user_output_node_caps (s : PipelineState) (df : DataFrame)
    (hdf : s.query_results = some df) (htr : s.total_rows = some df.rows.length) :
    ((user_output_node s).query_results.map DataFrame.rows =
        some (df.rows.take (min df.rows.length (s.display_cap.getD 500)))) ∧
    (df.rows.length > s.display_cap.getD 500 →
      (user_output_node s).metadata.map Metadata.capped = some true ∧
      (user_output_node s).metadata.map Metadata.displayed_rows =
        some (s.display_cap.getD 500)) ∧
    (df.rows.length ≤ s.display_cap.getD 500 →
      (user_output_node s).metadata.map Metadata.capped = some false ∧
      (user_output_node s).metadata.map Metadata.displayed_rows = some df.rows.length ∧
      (user_output_node s).query_results = some df) := by
  by_cases hc : df.rows.length > s.display_cap.getD 500
  · refine ⟨?_, fun _ => ⟨?_, ?_⟩, fun hle => absurd hc (by omega)⟩
    · simp only [user_output_node, hdf, htr, Option.getD_some, hc, if_true, Option.map_some]
      have : min df.rows.length (s.display_cap.getD 500) = s.display_cap.getD 500 := by omega
      rw [this]
      simp
    · simp only [user_output_node, hdf, htr, Option.getD_some, hc, if_true, Option.map_some]
      simp [hc]
    · simp only [user_output_node, hdf, htr, Option.getD_some, hc, if_true, Option.map_some]
      simp [List.length_take]
      omega
  · have hle : df.rows.length ≤ s.display_cap.getD 500 := by omega
    refine ⟨?_, fun hgt => absurd hgt hc, fun _ => ⟨?_, ?_, ?_⟩⟩
    · simp only [user_output_node, hdf, htr, Option.getD_some, hc, if_false, Option.map_some]
      have : min df.rows.length (s.display_cap.getD 500) = df.rows.length := by omega
      rw [this, List.take_length]
      simp
    · simp only [user_output_node, hdf, htr, Option.getD_some, hc, if_false, Option.map_some]
      simp [hc]
    · simp only [user_output_node, hdf, htr, Option.getD_some, hc, if_false, Option.map_some]
      simp
    · simp only [user_output_node, hdf, htr, Option.getD_some, hc, if_false, Option.map_some]

def c6State : PipelineState :=
  { sampleInit with
      display_cap := some 2
      query_results := some sampleDf
      total_rows := some 4 }

/-- Witness for C6: four rows against a display cap of two. -/
theorem user_output_node_caps_witness :
    ((user_output_node c6State).query_results.map DataFrame.rows =
        some (sampleDf.rows.take (min sampleDf.rows.length (c6State.display_cap.getD 500)))) ∧
    (sampleDf.rows.length > c6State.display_cap.getD 500 →
      (user_output_node c6State).metadata.map Metadata.capped = some true ∧
      (user_output_node c6State).metadata.map Metadata.displayed_rows =
        some (c6State.display_cap.getD 500)) ∧
    (sampleDf.rows.length ≤ c6State.display_cap.getD 500 →
      (user_output_node c6State).metadata.map Metadata.capped = some false ∧
      (user_output_node c6State).metadata.map Metadata.displayed_rows =
        some sampleDf.rows.length ∧
      (user_output_node c6State).query_results = some sampleDf) :=
  user_output_node_caps c6State sampleDf (by decide) (by decide)

/-- C7: whenever `total_rows` is `0`, the Insight Heuristic Engine stores a
non-empty insight: the gateway reply when it is longer than 10 characters,
and the fixed fallback sentence otherwise — in particular whenever the reply
is absent or shorter than 10 characters. -/
theorem insights_nonempty_on_empty_result (reply : Str) (s : PipelineState)
    (h : s.total_rows.getD 0 = 0) :
    (∃ t, (insights_generator_tool_node reply s).insights = some t ∧ t ≠ []) ∧
    (reply.length < 10 →
      (insights_generator_tool_node reply s).insights = some fallbackInsight) := by
  by_cases hl : reply.length > 10
  · constructor
    · refine ⟨reply, ?_, ?_⟩
      · simp [insights_generator_tool_node, h, hl]
      · intro hnil
        rw [hnil] at hl
        simp at hl
    · intro hshort; omega
  · constructor
    · refine ⟨fallbackInsight, ?_, by decide⟩
      simp [insights_generator_tool_node, h, hl]
    · intro _
      simp [insights_generator_tool_node, h, hl]

/-- Witness for C7: an empty result with a too-short gateway reply. -/
theorem insights_nonempty_on_empty_result_witness :
    (∃ t, (insights_generator_tool_node (("ok").data)
        { sampleInit with total_rows := some 0 }).insights = some t ∧ t ≠ []) ∧
    ((("ok").data : Str).length < 10 →
      (insights_generator_tool_node (("ok").data)
        { sampleInit with total_rows := some 0 }).insights = some fallbackInsight) :=
  insights_nonempty_on_empty_result (("ok").data)
    { sampleInit with total_rows := some 0 } (by decide)

def c8State : PipelineState :=
  { sampleInit with total_rows := some 7, execution_time := some 3 }

/-- C8 counterexample: a generic SQLAlchemy failure (no `timeout`, no
`permission denied` in the driver text) is stored with the raw driver text
behind the `Query execution failed:` prefix — not a taxonomy label — and the
missing-engine failure leaves `total_rows`/`execution_time` at their previous
values instead of `0`. -/
theorem executor_raw_error_surfaced :
    ((query_runner_tool_node (.dbError (("syntax error at or near FROM").data)) c8State).error =
      some (("Query execution failed: syntax error at or near FROM").data)) ∧
    ((query_runner_tool_node .noEngine c8State).total_rows = some 7 ∧
      (query_runner_tool_node .noEngine c8State).execution_time = some 3 ∧
      (query_runner_tool_node .noEngine c8State).error.isSome = true) := by decide

/-- C8 (amended): database and unexpected failures zero `total_rows` and
`execution_time` and drop the results; driver texts mentioning `timeout` or
`permission denied` are rewritten to the two fixed user-facing sentences, but
every other driver text is surfaced raw behind a `Query execution failed:`
(resp. `Unexpected error:`) prefix; the missing-engine failure sets `error`
without touching the counters. -/
theorem executor_failure_amended (s : PipelineState) (m : Str) :
    ((query_runner_tool_node (.dbError m) s).total_rows = some 0 ∧
      (query_runner_tool_node (.dbError m) s).execution_time = some 0 ∧
      (query_runner_tool_node (.dbError m) s).query_results = none) ∧
    ((query_runner_tool_node (.unexpected m) s).total_rows = some 0 ∧
      (query_runner_tool_node (.unexpected m) s).execution_time = some 0) ∧
    (strContains ("timeout".data) (pyLower m) = true →
      (query_runner_tool_node (.dbError m) s).error =
        some (("Query execution failed: ").data ++ timeoutRewrite)) ∧
    (strContains ("timeout".data) (pyLower m) = false →
      strContains ("permission denied".data) (pyLower m) = true →
      (query_runner_tool_node (.dbError m) s).error =
        some (("Query execution failed: ").data ++ permissionRewrite)) ∧
    (strContains ("timeout".data) (pyLower m) = false →
      strContains ("permission denied".data) (pyLower m) = false →
      (query_runner_tool_node (.dbError m) s).error =
        some (("Query execution failed: ").data ++ m)) ∧
    ((query_runner_tool_node (.unexpected m) s).error =
      some (("Unexpected error: ").data ++ m)) ∧
    ((query_runner_tool_node .noEngine s).error = some noDbMsg ∧
      (query_runner_tool_node .noEngine s).total_rows = s.total_rows ∧
      (query_runner_tool_node .noEngine s).execution_time = s.execution_time) := by
  refine ⟨⟨rfl, rfl, rfl⟩, ⟨rfl, rfl⟩, ?_, ?_, ?_, rfl, rfl, rfl, rfl⟩
  · intro h1
    simp [query_runner_tool_node, h1]
  · intro h1 h2
    simp [query_runner_tool_node, h1, h2]
  · intro h1 h2
    simp [query_runner_tool_node, h1, h2]

/-- Witness for the amended C8 with a deadlock message. -/
theorem executor_failure_amended_witness :
    ((query_runner_tool_node (.dbError (("deadlock detected").data)) c8State).total_rows = some 0 ∧
      (query_runner_tool_node (.dbError (("deadlock detected").data)) c8State).execution_time = some 0 ∧
      (query_runner_tool_node (.dbError (("deadlock detected").data)) c8State).query_results = none) ∧
    ((query_runner_tool_node (.unexpected (("deadlock detected").data)) c8State).total_rows = some 0 ∧
      (query_runner_tool_node (.unexpected (("deadlock detected").data)) c8State).execution_time = some 0) ∧
    (strContains ("timeout".data) (pyLower (("deadlock detected").data)) = true →
      (query_runner_tool_node (.dbError (("deadlock detected").data)) c8State).error =
        some (("Query execution failed: ").data ++ timeoutRewrite)) ∧
    (strContains ("timeout".data) (pyLower (("deadlock detected").data)) = false →
      strContains ("permission denied".data) (pyLower (("deadlock detected").data)) = true →
      (query_runner_tool_node (.dbError (("deadlock detected").data)) c8State).error =
        some (("Query execution failed: ").data ++ permissionRewrite)) ∧
    (strContains ("timeout".data) (pyLower (("deadlock detected").data)) = false →
      strContains ("permission denied".data) (pyLower (("deadlock detected").data)) = false →
      (query_runner_tool_node (.dbError (("deadlock detected").data)) c8State).error =
        some (("Query execution failed: deadlock detected").data)) ∧
    ((query_runner_tool_node (.unexpected (("deadlock detected").data)) c8State).error =
      some (("Unexpected error: deadlock detected").data)) ∧
    ((query_runner_tool_node .noEngine c8State).error = some noDbMsg ∧
      (query_runner_tool_node .noEngine c8State).total_rows = c8State.total_rows ∧
      (query_runner_tool_node .noEngine c8State).execution_time = c8State.execution_time) := by
  have h := executor_failure_amended c8State (("deadlock detected").data)
  exact ⟨h.1, h.2.1, h.2.2.1, h.2.2.2.1, fun a b => by
    have := h.2.2.2.2.1 a b
    simpa using this, by simpa using h.2.2.2.2.2.1, h.2.2.2.2.2.2⟩

/-- C9 counterexample: an `ERROR:`-prefixed gateway reply is stored verbatim
by the Prompt Refiner into `improved_prompt` and by the Insight Heuristic
Engine into `insights` — neither caller checks the prefix. -/
theorem error_reply_stored_unchecked :
    ((prompt_improver_node (("ERROR: connection refused").data) sampleInit).improved_prompt =
      some (("ERROR: connection refused").data)) ∧
    (("ERROR:".data).isPrefixOf (("ERROR: connection refused").data) = true) ∧
    ((insights_generator_tool_node (("ERROR: connection refused").data)
        { sampleInit with total_rows := some 0 }).insights =
      some (("ERROR: connection refused").data)) := by decide

/-- C9 (amended): only the Query Synthesizer checks the `ERROR:` prefix — an
`ERROR:`-prefixed reply makes both generator variants fail with
`sql_valid = False` and the reply stored as `error`.  The Prompt Refiner
stores the gateway reply into `improved_prompt` unchecked, and on an empty
result the Insight Heuristic Engine stores any reply longer than 10
characters — `ERROR:`-prefixed or not — into `insights`. -/
theorem error_prefix_checks_amended (reply : Str) (s : PipelineState) :
    (("ERROR:".data).isPrefixOf (pyStrip reply) = true →
      (query_generator_node reply s).sql_valid = some false ∧
      (query_generator_node reply s).error = some (pyStrip reply) ∧
      (lg_query_generator_node reply s).sql_valid = some false) ∧
    ((prompt_improver_node reply s).improved_prompt = some reply) ∧
    (s.total_rows.getD 0 = 0 → reply.length > 10 →
      (insights_generator_tool_node reply s).insights = some reply) := by
  refine ⟨?_, rfl, ?_⟩
  · intro h
    refine ⟨?_, ?_, ?_⟩
    · simp [query_generator_node, h]
    · simp [query_generator_node, h]
    · simp [lg_query_generator_node, h]
  · intro h0 hl
    simp [insights_generator_tool_node, h0, hl]

/-- Witness for the amended C9 with a concrete transport-failure reply. -/
theorem error_prefix_checks_amended_witness :
    (("ERROR:".data).isPrefixOf (pyStrip (("ERROR: boom msg").data)) = true →
      (query_generator_node (("ERROR: boom msg").data)
          { sampleInit with total_rows := some 0 }).sql_valid = some false ∧
      (query_generator_node (("ERROR: boom msg").data)
          { sampleInit with total_rows := some 0 }).error =
        some (pyStrip (("ERROR: boom msg").data)) ∧
      (lg_query_generator_node (("ERROR: boom msg").data)
          { sampleInit with total_rows := some 0 }).sql_valid = some false) ∧
    ((prompt_improver_node (("ERROR: boom msg").data)
        { sampleInit with total_rows := some 0 }).improved_prompt =
      some (("ERROR: boom msg").data)) ∧
    (({ sampleInit with total_rows := some 0 } : PipelineState).total_rows.getD 0 = 0 →
      (("ERROR: boom msg").data : Str).length > 10 →
      (insights_generator_tool_node (("ERROR: boom msg").data)
          { sampleInit with total_rows := some 0 }).insights =
        some (("ERROR: boom msg").data)) :=
  error_prefix_checks_amended (("ERROR: boom msg").data) { sampleInit with total_rows := some 0 }

/-! ## The agent-loop orchestrator (`src/src/graph.py`) -/

/-- One tool call requested by the model. -/
structure ToolCall where
  name : Str
  args : List (Str × Str)
  id : Str
deriving DecidableEq

/-- A turn in the agent conversation (System/Human/AI/Tool messages). -/
inductive AgentMsg where
  | system (content : Str)
  | human (content : Str)
  | ai (content : Str) (tool_calls : List ToolCall)
  | tool (content : Str) (tool_call_id : Str)
deriving DecidableEq

/-- The agent-loop state (`AgentState` of `src/src/state.py` as used by
`src/src/graph.py`). -/
structure AgentState where
  messages : List AgentMsg := []
  user_input : Str := []
  iteration_count : Option Nat := none
  schema : Option Schema := none
  sql_query : Option Str := none
  query_results : Option DataFrame := none
  insights : Option Str := none
deriving DecidableEq

/-- The terminal notice text of `agent_node`. -/
def maxIterNotice : Str := ("Maximum iterations reached. Ending task.").data

/-- `agent_node` (`src/src/graph.py` lines 26-53): at or above 5 iterations,
append the terminal notice and return; otherwise invoke the model on the turn
history, append its reply and increment the counter.  `llm` models
`llm_with_tools.invoke` and returns the reply content and requested tool
calls. -/
def agent_node (llm : List AgentMsg → Str × List ToolCall) (s : AgentState) : AgentState :=
  let messages := s.messages
  let iteration_count := s.iteration_count.getD 0
  if iteration_count ≥ 5 then
    { s with messages := messages ++ [.system maxIterNotice] }
  else
    let response := llm messages
    { s with messages := messages ++ [.ai response.1 response.2],
             iteration_count := some (iteration_count + 1) }

/-- `should_continue` (`src/src/graph.py` lines 182-198): `end` at the
iteration cap, `tools` when the last message is an AI turn with at least one
tool call, `end` otherwise. -/
def should_continue (s : AgentState) : Str :=
  if s.iteration_count.getD 0 ≥ 5 then ("end").data
  else
    match s.messages.getLast? with
    | some (.ai _ calls) => if calls.isEmpty then ("end").data else ("tools").data
    | _ => ("end").data

/-- External behaviour available to `custom_tool_node`: the schema tool's
JSON text and its parse, the SQL-generation tool's reply per arguments, the
database outcome per SQL text, and the insight gateway reply. -/
structure ToolEnv where
  schemaToolResult : Str
  schemaParsed : Option Schema
  genSqlResult : List (Str × Str) → Str
  execOutcome : Str → ExecOutcome
  insightsReply : Str

/-- Concatenate with a separator (models the joins used when rendering). -/
def joinWith (sep : Str) : List Str → Str
  | [] => []
  | [x] => x
  | x :: xs => x ++ sep ++ joinWith sep xs

/-- Rendering of a frame sample by pandas `to_string`, abstracted as cells
joined by spaces and rows by newlines (no claim inspects this text). -/
def renderRows (rows : List (List Str)) : Str :=
  joinWith ("\n".data) (rows.map (fun r => joinWith (" ".data) r))

/-- Accumulator of `custom_tool_node`: the tool messages produced so far and
the `new_state_updates` dict. -/
structure ToolAcc where
  tms : List AgentMsg := []
  schema : Option Schema := none
  sql_query : Option Str := none
  query_results : Option DataFrame := none
  insights : Option Str := none
deriving DecidableEq

/-- One iteration of the `for tool_call in last_message.tool_calls` loop of
`custom_tool_node` (`src/src/graph.py` lines 67-172).  `s` is the state
snapshot the handlers read from. -/
def runToolCall (env : ToolEnv) (s : AgentState) (acc : ToolAcc) (tc : ToolCall) : ToolAcc :=
  if tc.name = ("get_database_schema").data then
    let result := env.schemaToolResult
    let acc1 := match env.schemaParsed with
      | some sch => { acc with schema := some sch }
      | none => acc
    { acc1 with tms := acc1.tms ++ [.tool result tc.id] }
  else if tc.name = ("generate_sql_query").data then
    let result := env.genSqlResult tc.args
    let acc1 := if !(("ERROR").data.isPrefixOf result) then
        { acc with sql_query := some result }
      else acc
    { acc1 with tms := acc1.tms ++ [.tool result tc.id] }
  else if tc.name = ("execute_sql_query").data then
    let sql := ((tc.args.find? (fun p => p.1 = ("sql_query").data)).map Prod.snd).getD []
    match env.execOutcome sql with
    | .noEngine =>
      { acc with tms := acc.tms ++
          [.tool (("\x7b\"error\": \"Database connection not available\"\x7d").data) tc.id] }
    | .ok df elapsed =>
      let base := ("Query executed successfully. Retrieved ").data ++
        (toString df.rows.length).data ++ (" rows in ").data ++ (toString elapsed).data ++
        ("s.").data
      let content := if df.rows.length > 0 then
          base ++ ("\n\nSample data (first 3 rows):\n").data ++ renderRows (df.rows.take 3)
        else base
      { acc with query_results := some df, tms := acc.tms ++ [.tool content tc.id] }
    | .dbError m =>
      let msg := if strContains ("timeout".data) (pyLower m) then
          ("Query timeout (20s)").data
        else m
      { acc with tms := acc.tms ++ [.tool (("Error: ").data ++ msg) tc.id] }
    | .unexpected m =>
      { acc with tms := acc.tms ++ [.tool (("Error: ").data ++ m) tc.id] }
  else if tc.name = ("generate_insights_from_data").data then
    match s.query_results with
    | none =>
      { acc with tms := acc.tms ++
          [.tool (("No data available to generate insights.").data) tc.id] }
    | some df =>
      if df.rows.length = 0 then
        { acc with tms := acc.tms ++
            [.tool (("No data available to generate insights.").data) tc.id] }
      else
        let result := env.insightsReply
        let acc1 := if result ≠ [] then { acc with insights := some result } else acc
        { acc1 with tms := acc1.tms ++
            [.tool (if result = [] then ("Insights generated.").data else result) tc.id] }
  else acc

/-- `custom_tool_node` (`src/src/graph.py` lines 56-179): execute every tool
call of the last message, append one tool message per executed call, and merge
the collected deltas over the state; `iteration_count` is never touched. -/
def custom_tool_node (env : ToolEnv) (s : AgentState) : AgentState :=
  let calls := match s.messages.getLast? with
    | some (.ai _ cs) => cs
    | _ => []
  let acc := calls.foldl (runToolCall env s) {}
  { s with
      messages := s.messages ++ acc.tms,
      schema := acc.schema.orElse (fun _ => s.schema),
      sql_query := acc.sql_query.orElse (fun _ => s.sql_query),
      query_results := acc.query_results.orElse (fun _ => s.query_results),
      insights := acc.insights.orElse (fun _ => s.insights) }

/-- The compiled `Agent ⇄ Tools` loop of `create_react_graph`
(`src/src/graph.py` lines 201-232): run `agent`, branch on `should_continue`;
after `tools` control always returns to `agent`.  `fuel` bounds the number of
agent turns considered. -/
def runReactLoop (llm : List AgentMsg → Str × List ToolCall) (env : ToolEnv) :
    Nat → AgentState → AgentState
  | 0, s => s
  | fuel + 1, s =>
    let t := agent_node llm s
    if should_continue t = ("tools").data then
      runReactLoop llm env fuel (custom_tool_node env t)
    else t

/-- The initial state built by `run_agent` (`src/src/graph.py` lines 246-255).
`systemPrompt` stands for `AGENT_SYSTEM_PROMPT`, which `src/src/graph.py`
imports but `src/src/prompts.py` does not define; its content is irrelevant
to the loop. -/
def run_agent_init (userQuery systemPrompt : Str) : AgentState :=
  { messages := [.system systemPrompt, .human userQuery],
    user_input := userQuery,
    iteration_count := some 0 }

lemma custom_tool_node_iteration (env : ToolEnv) (s : AgentState) :
    (custom_tool_node env s).iteration_count = s.iteration_count := rfl

lemma agent_node_iteration_le (llm : List AgentMsg → Str × List ToolCall)
    (s : AgentState) (h : s.iteration_count.getD 0 ≤ 5) :
    (agent_node llm s).iteration_count.getD 0 ≤ 5 := by
  simp only [agent_node]
  by_cases h5 : s.iteration_count.getD 0 ≥ 5
  · rw [if_pos h5]
    exact h
  · rw [if_neg h5]
    show s.iteration_count.getD 0 + 1 ≤ 5
    omega

lemma should_continue_at_five (s : AgentState) (h : s.iteration_count.getD 0 ≥ 5) :
    should_continue s = ("end").data := by
  simp [should_continue, h]

lemma runReactLoop_iteration_le (llm : List AgentMsg → Str × List ToolCall)
    (env : ToolEnv) :
    ∀ (fuel : Nat) (s : AgentState), s.iteration_count.getD 0 ≤ 5 →
      (runReactLoop llm env fuel s).iteration_count.getD 0 ≤ 5 := by
  intro fuel
  induction fuel with
  | zero => intro s h; exact h
  | succ k ih =>
    intro s h
    simp only [runReactLoop]
    by_cases hc : should_continue (agent_node llm s) = ("tools").data
    · rw [if_pos hc]
      apply ih
      rw [custom_tool_node_iteration]
      exact agent_node_iteration_le llm s h
    · rw [if_neg hc]
      exact agent_node_iteration_le llm s h

lemma runToolCall_tms (env : ToolEnv) (s : AgentState) (acc : ToolAcc) (tc : ToolCall) :
    ∃ extra, (runToolCall env s acc tc).tms = acc.tms ++ extra ∧
      ∀ m ∈ extra, ∀ c, m ≠ AgentMsg.system c := by
  simp only [runToolCall]
  repeat' split
  all_goals first
    | exact ⟨_, rfl, by intro m hm c; simp at hm; simp [hm]⟩
    | exact ⟨[], (List.append_nil _).symm, by intro m hm; cases hm⟩

lemma foldl_tms_no_system (env : ToolEnv) (s : AgentState) :
    ∀ (calls : List ToolCall) (acc : ToolAcc),
      (∀ c, AgentMsg.system c ∉ acc.tms) →
      ∀ c, AgentMsg.system c ∉ (calls.foldl (runToolCall env s) acc).tms := by
  intro calls
  induction calls with
  | nil => intro acc h; exact h
  | cons tc rest ih =>
    intro acc h c
    simp only [List.foldl_cons]
    apply ih
    intro c'
    obtain ⟨extra, he, hex⟩ := runToolCall_tms env s acc tc
    rw [he]
    intro hmem
    rcases List.mem_append.1 hmem with h1 | h2
    · exact h c' h1
    · exact hex _ h2 c' rfl

lemma runReactLoop_no_notice (llm : List AgentMsg → Str × List ToolCall)
    (env : ToolEnv) :
    ∀ (fuel : Nat) (s : AgentState), s.iteration_count.getD 0 ≤ 4 →
      AgentMsg.system maxIterNotice ∉ s.messages →
      AgentMsg.system maxIterNotice ∉ (runReactLoop llm env fuel s).messages := by
  intro fuel
  induction fuel with
  | zero => intro s _ h; exact h
  | succ k ih =>
    intro s h4 hnm
    simp only [runReactLoop]
    have hlt : ¬ (s.iteration_count.getD 0 ≥ 5) := by omega
    have hmsg : (agent_node llm s).messages =
        s.messages ++ [.ai (llm s.messages).1 (llm s.messages).2] := by
      simp [agent_node, hlt]
    have hnm2 : AgentMsg.system maxIterNotice ∉ (agent_node llm s).messages := by
      rw [hmsg]
      intro hmem
      rcases List.mem_append.1 hmem with h1 | h2
      · exact hnm h1
      · simp at h2
    by_cases hc : should_continue (agent_node llm s) = ("tools").data
    · rw [if_pos hc]
      apply ih
      · rw [custom_tool_node_iteration]
        by_contra hge
        push_neg at hge
        have hend := should_continue_at_five (agent_node llm s) (by omega)
        rw [hend] at hc
        exact absurd hc (by decide)
      · simp only [custom_tool_node]
        intro hmem
        rcases List.mem_append.1 hmem with h1 | h2
        · exact hnm2 h1
        · exact foldl_tms_no_system env (agent_node llm s) _ {}
            (by intro c hc'; cases hc') maxIterNotice h2
    · rw [if_neg hc]
      exact hnm2

/-- A model that requests one schema-fetch tool call on every turn. -/
def c5Llm : List AgentMsg → Str × List ToolCall :=
  fun _ => (("Let me check the schema.").data,
    [{ name := ("get_database_schema").data, args := [], id := ("call_1").data }])

def c5Env : ToolEnv :=
  { schemaToolResult := ("schema json").data,
    schemaParsed := some placeholder_schema,
    genSqlResult := fun _ => ("SELECT 1").data,
    execOutcome := fun _ => .ok sampleDf 1,
    insightsReply := ("Interesting data overall.").data }

def c5Init : AgentState :=
  run_agent_init (("show data").data) (("You are a helpful SQL assistant.").data)

/-- C5 counterexample: with a model that requests a tool call on every turn,
the loop force-terminates at `iteration_count = 5` while a tool request is
still pending — but no terminal system notice is ever appended: the notice
branch of `agent_node` only fires when entered with `iteration_count ≥ 5`,
which `should_continue` prevents. -/
theorem forced_termination_without_notice :
    ((runReactLoop c5Llm c5Env 20 c5Init).iteration_count = some 5) ∧
    (should_continue (runReactLoop c5Llm c5Env 20 c5Init) = ("end").data) ∧
    ((c5Llm (runReactLoop c5Llm c5Env 20 c5Init).messages).2 ≠ []) ∧
    (AgentMsg.system maxIterNotice ∉ (runReactLoop c5Llm c5Env 20 c5Init).messages) := by
  decide

/-- C5 (amended): for every model behaviour and tool environment,
`iteration_count` never exceeds 5 in a run started by `run_agent`, and any
state at the cap routes to `end`, so no further tool turn executes; the
terminal system notice, however, is never appended in such a run. -/
theorem agent_loop_bounded_amended (llm : List AgentMsg → Str × List ToolCall)
    (env : ToolEnv) (userQuery sysPrompt : Str) (fuel : Nat) (s : AgentState)
    (hsp : sysPrompt ≠ maxIterNotice) (hs5 : s.iteration_count.getD 0 ≥ 5) :
    ((runReactLoop llm env fuel (run_agent_init userQuery sysPrompt)).iteration_count.getD 0 ≤ 5) ∧
    (should_continue s = ("end").data) ∧
    (AgentMsg.system maxIterNotice ∉
      (runReactLoop llm env fuel (run_agent_init userQuery sysPrompt)).messages) := by
  refine ⟨?_, should_continue_at_five s hs5, ?_⟩
  · exact runReactLoop_iteration_le llm env fuel _ (by simp [run_agent_init])
  · apply runReactLoop_no_notice llm env fuel _ (by simp [run_agent_init])
    simp only [run_agent_init]
    intro hmem
    rcases List.mem_cons.1 hmem with h1 | h2
    · exact hsp (by injection h1 with hh; exact hh.symm)
    · rcases List.mem_cons.1 h2 with h3 | h4
      · cases h3
      · cases h4

/-- Witness for the amended C5 at the concrete always-calling run. -/
theorem agent_loop_bounded_amended_witness :
    ((runReactLoop c5Llm c5Env 20
        (run_agent_init (("show data").data)
          (("You are a helpful SQL assistant.").data))).iteration_count.getD 0 ≤ 5) ∧
    (should_continue { c5Init with iteration_count := some 5 } = ("end").data) ∧
    (AgentMsg.system maxIterNotice ∉
      (runReactLoop c5Llm c5Env 20
        (run_agent_init (("show data").data)
          (("You are a helpful SQL assistant.").data))).messages) :=
  agent_loop_bounded_amended c5Llm c5Env (("show data").data)
    (("You are a helpful SQL assistant.").data) 20
    { c5Init with iteration_count := some 5 } (by decide) (by decide)
